import Mathlib

/-!
Shallow embedding of the Figma MCP correlation bridge (`src/index.ts`).

The bridge keeps a global `serverState` record holding the single active
WebSocket to the Figma plugin, a map of pending tool requests keyed by a
fresh request identifier, and a redundant `isConnected` flag.  Control-plane
tool calls (`CallToolRequestSchema` handler) are dispatched through
`sendToFigma`, which registers a pending entry with a deadline timer and
sends a `tool_request` frame; inbound frames are routed by `ws.on("message")`
to `handleFigmaResponse`, which resolves the matching entry by id; the
`ws.on("close")` handler clears the connection and rejects every pending
entry; the timer callback rejects its own entry with a timeout error.

Modelling choices:
  * `randomUUID()` is modelled as a fresh-identifier supply (`nextId : Nat`
    counter); identifiers are opaque to the bridge, only compared for
    equality, so `Nat` stands in for the UUID string.
  * A JavaScript promise's one-shot resolve/reject pair is modelled by
    emitting `Resolution` values (id together with the outcome delivered to
    the waiting caller) from each transition.
  * `setTimeout`/`clearTimeout` are modelled by a set of armed timer ids;
    `fireTimer` can only act on an armed timer (a cleared timer never runs),
    and its body is the source's callback verbatim.
  * JSON objects (tool arguments and payloads) are association lists of
    string key/value pairs; the `x || dflt` idiom (which treats the empty
    string as falsy) is modelled by `jsOrDefault`.
  * `ws.send` may throw synchronously; the environment's choice is passed in
    as the `sendOk`/`sendErr` parameters of `sendToFigma`.
-/

/-- WebSocket readyState values (`WebSocket.CONNECTING/OPEN/CLOSING/CLOSED`). -/
inductive ReadyState where
  | CONNECTING
  | OPEN
  | CLOSING
  | CLOSED
  deriving DecidableEq

/-- One data-plane connection: an opaque transport handle plus its current
readyState (the `readyState` property of the stored `WebSocket` object). -/
structure Conn where
  handle : Nat
  readyState : ReadyState
  deriving DecidableEq

/-- A JSON object of string fields (tool arguments, response payloads). -/
def JsObj : Type := List (String × String)

instance : DecidableEq JsObj := by
  unfold JsObj
  infer_instance

/-- `tool_request` frame sent from the MCP server to the Figma plugin
(the `type: "tool_request"` discriminant is implicit in the Lean type). -/
structure FigmaToolRequest where
  id : Nat
  tool : String
  args : JsObj
  deriving DecidableEq

/-- `tool_response` frame sent from the Figma plugin to the MCP server.
`data` is the (opaque) success payload, `error` the optional error string. -/
structure FigmaToolResponse where
  id : Nat
  success : Bool
  data : JsObj
  error : Option String
  deriving DecidableEq

/-- Pending request record stored in `serverState.pendingRequests`.  The
`resolve`/`reject` callbacks are modelled by emitted `Resolution`s and the
`timeout` handle by membership in `armedTimers`, so only the data fields
remain. -/
structure PendingRequest where
  id : Nat
  toolName : String
  timestamp : Nat
  deriving DecidableEq

/-- The outcome delivered to the caller awaiting `sendToFigma`'s promise:
`ok data` for `resolve(response.data)`, `err msg` for `reject(new Error(msg))`. -/
inductive CallOutcome where
  | ok (data : JsObj)
  | err (msg : String)
  deriving DecidableEq

/-- One observable resolution of a pending call's promise. -/
structure Resolution where
  id : Nat
  outcome : CallOutcome
  deriving DecidableEq

/-- The global `serverState` of the bridge, extended with the bookkeeping
that makes the JavaScript runtime's behaviour explicit: the armed deadline
timers, the fresh-id counter behind `randomUUID`, the current clock value
read by `Date.now()`, and the trace of frames actually written to the
socket. -/
structure ServerState where
  figmaConnection : Option Conn
  pendingRequests : List (Nat × PendingRequest)
  isConnected : Bool
  armedTimers : List Nat
  nextId : Nat
  now : Nat
  sentFrames : List FigmaToolRequest
  deriving DecidableEq

/-- `REQUEST_TIMEOUT` constant (milliseconds). -/
def REQUEST_TIMEOUT : Nat := 5000

/-- Message of the error rejected when no connection is active. -/
def notConnectedMsg : String :=
  "Figma plugin is not connected. Please open Figma and run the MCP plugin."

/-- Message of the error rejected by the deadline timer callback. -/
def timeoutMsg : String :=
  "Request timeout: Figma did not respond within " ++ toString REQUEST_TIMEOUT ++ "ms"

/-- Message of the error rejected for every pending call on connection close. -/
def disconnectedMsg : String := "Figma plugin disconnected"

/-! ### The pending-request map

`serverState.pendingRequests` is a JavaScript `Map`; we embed it as an
association list in insertion order with `Map.get`/`Map.set`/`Map.delete`
counterparts. -/

/-- `Map.get`: first binding of the key, if any. -/
def lookupReq (t : List (Nat × PendingRequest)) (id : Nat) : Option PendingRequest :=
  match t with
  | [] => none
  | (k, v) :: rest => if k = id then some v else lookupReq rest id

/-- `Map.set`: replace the binding in place, or append a new one. -/
def setReq (t : List (Nat × PendingRequest)) (id : Nat) (v : PendingRequest) :
    List (Nat × PendingRequest) :=
  match t with
  | [] => [(id, v)]
  | (k, w) :: rest => if k = id then (id, v) :: rest else (k, w) :: setReq rest id v

/-- `Map.delete`: drop every binding of the key. -/
def eraseReq (t : List (Nat × PendingRequest)) (id : Nat) : List (Nat × PendingRequest) :=
  t.filter (fun p => p.1 != id)

/-! ### Bridge transitions, translated from `src/index.ts` -/

/-- `isFigmaConnected()`: the stored handle is non-null and its readyState
is `OPEN`. -/
def isFigmaConnected (s : ServerState) : Bool :=
  match s.figmaConnection with
  | some c => c.readyState = ReadyState.OPEN
  | none => false

/-- Result of `sendToFigma` as seen by its caller before any inbound frame
arrives: either the promise was rejected synchronously (`failed`) or a
pending entry with the given id is now registered and awaited. -/
inductive SendResult where
  | registered (id : Nat)
  | failed (msg : String)
  deriving DecidableEq

/-- `sendToFigma(toolName, args)`: check the connection, mint a fresh id,
arm the deadline timer, register the pending entry, then send the
`tool_request` frame; if `send` throws (`sendOk = false`), clear the timer,
remove the entry and reject with the send-failure error. -/
def sendToFigma (s : ServerState) (toolName : String) (args : JsObj)
    (sendOk : Bool) (sendErr : String) : ServerState × SendResult :=
  if !(isFigmaConnected s) then
    (s, .failed notConnectedMsg)
  else
    let requestId := s.nextId
    let s₁ : ServerState :=
      { s with
        nextId := s.nextId + 1
        armedTimers := requestId :: s.armedTimers
        pendingRequests :=
          setReq s.pendingRequests requestId
            ⟨requestId, toolName, s.now⟩ }
    if sendOk then
      ({ s₁ with sentFrames := s₁.sentFrames ++ [⟨requestId, toolName, args⟩] },
       .registered requestId)
    else
      ({ s₁ with
          armedTimers := s₁.armedTimers.erase requestId
          pendingRequests := eraseReq s₁.pendingRequests requestId },
       .failed ("Failed to send request to Figma: " ++ sendErr))

/-- The `x || dflt` JavaScript idiom on an optional string field: `undefined`
and the empty string both fall back to the default. -/
def jsOrDefault (v : Option String) (dflt : String) : String :=
  match v with
  | some st => if st = "" then dflt else st
  | none => dflt

/-- `handleFigmaResponse(response)`: look up the pending entry by the
response's id; if absent, log and return (no effect); otherwise clear its
timeout, delete the entry, and resolve or reject its promise according to
`response.success`. -/
def handleFigmaResponse (s : ServerState) (response : FigmaToolResponse) :
    ServerState × List Resolution :=
  match lookupReq s.pendingRequests response.id with
  | none => (s, [])
  | some _pending =>
    let s' : ServerState :=
      { s with
        armedTimers := s.armedTimers.erase response.id
        pendingRequests := eraseReq s.pendingRequests response.id }
    if response.success then
      (s', [⟨response.id, .ok response.data⟩])
    else
      (s', [⟨response.id, .err (jsOrDefault response.error "Unknown error from Figma")⟩])

/-- Body of the `setTimeout` callback armed by `sendToFigma`: delete the
entry and reject the promise with the timeout error. -/
def timerCallback (s : ServerState) (id : Nat) : ServerState × List Resolution :=
  ({ s with pendingRequests := eraseReq s.pendingRequests id },
   [⟨id, .err timeoutMsg⟩])

/-- The runtime fires a deadline timer: only an armed (not-yet-cleared)
timer can run, and a fired timer is spent. -/
def fireTimer (s : ServerState) (id : Nat) : ServerState × List Resolution :=
  if id ∈ s.armedTimers then
    timerCallback { s with armedTimers := s.armedTimers.erase id } id
  else
    (s, [])

/-- `wss.on("connection")` handler: store the new socket (a freshly accepted
WebSocket is `OPEN`) and set the flag.  The prior handle, if any, is simply
overwritten. -/
def onConnect (s : ServerState) (h : Nat) : ServerState :=
  { s with figmaConnection := some ⟨h, ReadyState.OPEN⟩, isConnected := true }

/-- `ws.on("close")` handler of a socket with handle `_h`: null the stored
connection, clear the flag, and reject every pending request after clearing
its timer.  Note the source never compares the closing socket with the
currently stored one — the handle argument is ignored. -/
def onClose (s : ServerState) (_h : Nat) : ServerState × List Resolution :=
  ({ s with
      figmaConnection := none
      isConnected := false
      pendingRequests := []
      armedTimers :=
        s.armedTimers.filter (fun t => !(s.pendingRequests.any (fun p => p.1 == t))) },
   s.pendingRequests.map (fun p => ⟨p.1, .err disconnectedMsg⟩))

/-- Classification of one inbound WebSocket frame after the
`JSON.parse` + `data.type` routing in the `ws.on("message")` handler:
a `tool_response`, an `event`, a parsed object whose `type` is missing or
unrecognized, or bytes that made `JSON.parse` throw. -/
inductive InboundMessage where
  | toolResponse (r : FigmaToolResponse)
  | event (name : String) (data : String)
  | unknownType (raw : String)
  | parseFailure (raw : String)
  deriving DecidableEq

/-- `ws.on("message")` handler: route a `tool_response` to
`handleFigmaResponse`; log and drop everything else (events, unknown
discriminants, parse errors). -/
def onMessage (s : ServerState) (m : InboundMessage) : ServerState × List Resolution :=
  match m with
  | .toolResponse r => handleFigmaResponse s r
  | .event _ _ => (s, [])
  | .unknownType _ => (s, [])
  | .parseFailure _ => (s, [])

/-! ### Control-plane server (`CallToolRequestSchema` handler) -/

/-- Structured result returned to the control-plane caller: a list of text
content items plus the `isError` flag (absent in JS on success, modelled as
`false`). -/
structure ToolResult where
  content : List String
  isError : Bool
  deriving DecidableEq

/-- The catch-block of the tool-call handler: a plain-text payload naming
the operation and the failure reason, with the error flag set. -/
def mkError (name msg : String) : ToolResult :=
  { content := ["Error executing tool \"" ++ name ++ "\": " ++ msg]
    isError := true }

/-- The catalog of operation names the tool-call handler recognizes
(`src/index.ts` handles exactly the `ping` tool; any other name reaches the
`Unknown tool` throw). -/
def catalog : List String := ["ping"]

/-- `args?.message || "Hello from Claude Desktop!"`. -/
def pingMessageArg (args : JsObj) : String :=
  jsOrDefault (args.lookup "message") "Hello from Claude Desktop!"

/-- Template-literal access to a payload field: an absent field renders as
`undefined`. -/
def jsField (d : JsObj) (k : String) : String :=
  jsOrDefault (d.lookup k) "undefined"

/-- Success text built by the `ping` branch from the awaited payload. -/
def pongText (message : String) (d : JsObj) : String :=
  "🏓 PONG! Full round-trip successful!\n\n" ++
  "Your message: \"" ++ message ++ "\"\n" ++
  "Figma response: " ++ jsField d "message" ++ "\n" ++
  "Figma timestamp: " ++ jsField d "timestamp" ++ "\n" ++
  "Figma version: " ++ jsField d "figmaVersion" ++ "\n" ++
  "MCP Server: figma-mcp-server v1.0.0"

/-- State of one control-plane invocation after the synchronous part of the
handler ran: either a result is already determined (unknown tool, or
`sendToFigma` rejected synchronously), or the handler is awaiting the
resolution of the pending call with the given id. -/
inductive CallPhase where
  | done (r : ToolResult)
  | awaiting (id : Nat)
  deriving DecidableEq

/-- Synchronous part of the `CallToolRequestSchema` handler: route by tool
name; for `ping`, extract the message argument and dispatch through
`sendToFigma`; for any other name, throw `Unknown tool`, which the
catch-block turns into an error result.  A synchronous rejection from
`sendToFigma` is likewise caught and converted. -/
def callToolStart (s : ServerState) (name : String) (args : JsObj)
    (sendOk : Bool) (sendErr : String) : ServerState × CallPhase :=
  if name = "ping" then
    let message := pingMessageArg args
    match sendToFigma s "ping" [("message", message)] sendOk sendErr with
    | (s', .registered id) => (s', .awaiting id)
    | (s', .failed msg) => (s', .done (mkError name msg))
  else
    (s, .done (mkError name ("Unknown tool: " ++ name)))

/-- Asynchronous tail of the handler: the awaited promise resolved with
`out`.  A success payload is formatted by the `ping` branch; any rejection
is caught and converted by the catch-block into the error result. -/
def callToolFinish (name : String) (args : JsObj) (out : CallOutcome) : ToolResult :=
  match out with
  | .ok d => { content := [pongText (pingMessageArg args) d], isError := false }
  | .err msg => mkError name msg

/-! ### Scenario drivers

These fold the transitions above over lists of stimuli; they are the
bridge's behaviour under the multi-call scenarios of the specification. -/

/-- Issue a batch of invocations back-to-back (each `invoke` enters before
any reply arrives), collecting the ids of the registered pending calls. -/
def registerAll (s : ServerState) (tools : List (String × JsObj)) :
    ServerState × List Nat :=
  match tools with
  | [] => (s, [])
  | (t, a) :: rest =>
    match sendToFigma s t a true "" with
    | (s', .registered id) =>
      let p := registerAll s' rest
      (p.1, id :: p.2)
    | (s', .failed _) => registerAll s' rest

/-- Deliver a batch of `tool_response` frames in the given order, collecting
every resolution they produce. -/
def deliverAll (s : ServerState) (rs : List FigmaToolResponse) :
    ServerState × List Resolution :=
  match rs with
  | [] => (s, [])
  | r :: rest =>
    let p := handleFigmaResponse s r
    let q := deliverAll p.1 rest
    (q.1, p.2 ++ q.2)

/-- Contiguous block of identifiers, as minted by consecutive calls. -/
def idRange (start n : Nat) : List Nat :=
  match n with
  | 0 => []
  | k + 1 => start :: idRange (start + 1) k

/-! ### Lemmas about the pending-request map -/

theorem eraseReq_cons (k : Nat) (v : PendingRequest) (tl : List (Nat × PendingRequest))
    (id : Nat) :
    eraseReq ((k, v) :: tl) id =
      if k = id then eraseReq tl id else (k, v) :: eraseReq tl id := by
  by_cases h : k = id <;> simp [eraseReq, List.filter_cons, h]

theorem lookupReq_eraseReq_self (t : List (Nat × PendingRequest)) (id : Nat) :
    lookupReq (eraseReq t id) id = none := by
  induction t with
  | nil => rfl
  | cons hd tl ih =>
    obtain ⟨k, v⟩ := hd
    rw [eraseReq_cons]
    by_cases h : k = id
    · simpa [h] using ih
    · simpa [lookupReq, h] using ih

theorem lookupReq_eraseReq_ne (t : List (Nat × PendingRequest)) {id id' : Nat}
    (h : id' ≠ id) : lookupReq (eraseReq t id) id' = lookupReq t id' := by
  induction t with
  | nil => rfl
  | cons hd tl ih =>
    obtain ⟨k, v⟩ := hd
    rw [eraseReq_cons]
    by_cases hk : k = id
    · subst hk
      simp [lookupReq, Ne.symm h, ih]
    · by_cases hk' : k = id' <;> simp [lookupReq, hk, hk', h, ih]

theorem eraseReq_of_lookupReq_none (t : List (Nat × PendingRequest)) (id : Nat)
    (h : lookupReq t id = none) : eraseReq t id = t := by
  induction t with
  | nil => rfl
  | cons hd tl ih =>
    obtain ⟨k, v⟩ := hd
    rw [eraseReq_cons]
    by_cases hk : k = id
    · simp [lookupReq, hk] at h
    · simp [lookupReq, hk] at h
      simp [hk, ih h]

theorem lookupReq_setReq_self (t : List (Nat × PendingRequest)) (id : Nat)
    (v : PendingRequest) : lookupReq (setReq t id v) id = some v := by
  induction t with
  | nil => simp [setReq, lookupReq]
  | cons hd tl ih =>
    obtain ⟨k, w⟩ := hd
    by_cases hk : k = id <;> simp [setReq, lookupReq, hk, ih]

theorem lookupReq_setReq_ne (t : List (Nat × PendingRequest)) {id id' : Nat}
    (v : PendingRequest) (h : id' ≠ id) :
    lookupReq (setReq t id v) id' = lookupReq t id' := by
  induction t with
  | nil => simp [setReq, lookupReq, Ne.symm h]
  | cons hd tl ih =>
    obtain ⟨k, w⟩ := hd
    by_cases hk : k = id
    · subst hk
      simp [setReq, lookupReq, Ne.symm h]
    · by_cases hk' : k = id' <;> simp [setReq, lookupReq, hk, hk', h, ih]

theorem eraseReq_setReq_self (t : List (Nat × PendingRequest)) (id : Nat)
    (v : PendingRequest) : eraseReq (setReq t id v) id = eraseReq t id := by
  induction t with
  | nil => simp [setReq, eraseReq]
  | cons hd tl ih =>
    obtain ⟨k, w⟩ := hd
    by_cases hk : k = id
    · subst hk
      simp [setReq, eraseReq_cons, ih]
    · simp [setReq, hk, eraseReq_cons, ih]

/-! ### Lemmas about the transitions -/

theorem handleFigmaResponse_of_none {s : ServerState} {r : FigmaToolResponse}
    (h : lookupReq s.pendingRequests r.id = none) :
    handleFigmaResponse s r = (s, []) := by
  simp [handleFigmaResponse, h]

theorem handleFigmaResponse_of_some {s : ServerState} {r : FigmaToolResponse}
    {p : PendingRequest} (h : lookupReq s.pendingRequests r.id = some p) :
    handleFigmaResponse s r =
      ({ s with
          armedTimers := s.armedTimers.erase r.id
          pendingRequests := eraseReq s.pendingRequests r.id },
       [⟨r.id,
         if r.success then CallOutcome.ok r.data
         else CallOutcome.err (jsOrDefault r.error "Unknown error from Figma")⟩]) := by
  by_cases hs : r.success <;> simp [handleFigmaResponse, h, hs]

theorem sendToFigma_connected_ok {s : ServerState} (t : String) (a : JsObj)
    (h : isFigmaConnected s = true) :
    sendToFigma s t a true "" =
      ({ s with
          nextId := s.nextId + 1
          armedTimers := s.nextId :: s.armedTimers
          pendingRequests := setReq s.pendingRequests s.nextId ⟨s.nextId, t, s.now⟩
          sentFrames := s.sentFrames ++ [⟨s.nextId, t, a⟩] },
       .registered s.nextId) := by
  simp [sendToFigma, h]

/-! ### Lemmas about the scenario drivers -/

theorem mem_idRange {m start n : Nat} :
    m ∈ idRange start n ↔ start ≤ m ∧ m < start + n := by
  induction n generalizing start with
  | zero => simp [idRange]
  | succ k ih =>
    simp [idRange, List.mem_cons, ih]
    omega

theorem idRange_nodup (start n : Nat) : (idRange start n).Nodup := by
  induction n generalizing start with
  | zero => simp [idRange]
  | succ k ih =>
    refine List.nodup_cons.mpr ⟨?_, ih (start + 1)⟩
    rw [mem_idRange]
    omega

theorem idRange_length (start n : Nat) : (idRange start n).length = n := by
  induction n generalizing start with
  | zero => rfl
  | succ k ih => simp [idRange, ih]

/-- Issuing a batch of calls from a connected state registers them all:
the collected ids are the consecutive fresh ids, the connection stays up,
every issued id has a live table entry afterwards, and every other id's
binding is untouched. -/
theorem registerAll_spec (tools : List (String × JsObj)) (s : ServerState)
    (hc : isFigmaConnected s = true) :
    (registerAll s tools).2 = idRange s.nextId tools.length ∧
    isFigmaConnected (registerAll s tools).1 = true ∧
    (∀ id, id ∈ idRange s.nextId tools.length →
      (lookupReq (registerAll s tools).1.pendingRequests id).isSome = true) ∧
    (∀ id, id ∉ idRange s.nextId tools.length →
      lookupReq (registerAll s tools).1.pendingRequests id
        = lookupReq s.pendingRequests id) := by
  induction tools generalizing s with
  | nil =>
    refine ⟨rfl, hc, ?_, ?_⟩
    · intro id h
      simp [idRange] at h
    · intro id _h
      rfl
  | cons hd tl ih =>
    obtain ⟨t, a⟩ := hd
    have hsend := sendToFigma_connected_ok t a hc
    have hc' : isFigmaConnected (sendToFigma s t a true "").1 = true := by
      rw [hsend]
      exact hc
    obtain ⟨h1, h2, h3, h4⟩ := ih (sendToFigma s t a true "").1 hc'
    rw [hsend] at h1 h2 h3 h4
    simp only [registerAll, hsend]
    have hn : ((⟨s.figmaConnection, setReq s.pendingRequests s.nextId
        ⟨s.nextId, t, s.now⟩, s.isConnected, s.nextId :: s.armedTimers, s.nextId + 1,
        s.now, s.sentFrames ++ [⟨s.nextId, t, a⟩]⟩ : ServerState)).nextId = s.nextId + 1 := rfl
    constructor
    · simp only [idRange, List.length_cons]
      rw [h1]
    constructor
    · exact h2
    constructor
    · intro id hid
      rw [mem_idRange] at hid
      simp only [List.length_cons] at hid
      by_cases hcase : id = s.nextId
      · subst hcase
        have hnot : s.nextId ∉ idRange (s.nextId + 1) tl.length := by
          rw [mem_idRange]
          omega
        rw [h4 _ hnot]
        simp [lookupReq_setReq_self]
      · have hmem : id ∈ idRange (s.nextId + 1) tl.length := by
          rw [mem_idRange]
          omega
        exact h3 _ hmem
    · intro id hid
      rw [mem_idRange] at hid
      simp only [List.length_cons] at hid
      have hnot : id ∉ idRange (s.nextId + 1) tl.length := by
        rw [mem_idRange]
        omega
      have hne : id ≠ s.nextId := by
        omega
      rw [h4 _ hnot]
      simp [lookupReq_setReq_ne _ _ hne]

/-- Delivering success `tool_response` frames with pairwise-distinct ids,
each matching a live table entry, resolves every call with exactly the
payload of the frame carrying its id, in delivery order. -/
theorem deliverAll_ok (rs : List FigmaToolResponse) (s : ServerState)
    (hnd : (rs.map FigmaToolResponse.id).Nodup)
    (hmem : ∀ r ∈ rs, (lookupReq s.pendingRequests r.id).isSome = true)
    (hsucc : ∀ r ∈ rs, r.success = true) :
    (deliverAll s rs).2 = rs.map (fun r => ⟨r.id, CallOutcome.ok r.data⟩) := by
  induction rs generalizing s with
  | nil => rfl
  | cons r rest ih =>
    have hr : (lookupReq s.pendingRequests r.id).isSome = true := hmem r (by simp)
    obtain ⟨p, hp⟩ := Option.isSome_iff_exists.mp hr
    have hstep := handleFigmaResponse_of_some hp
    have hrs : r.success = true := hsucc r (by simp)
    have hhead : r.id ∉ rest.map FigmaToolResponse.id :=
      (List.nodup_cons.mp hnd).1
    have hmem' : ∀ r' ∈ rest, (lookupReq (handleFigmaResponse s r).1.pendingRequests
        r'.id).isSome = true := by
      intro r' hr'
      have hne : r'.id ≠ r.id := by
        intro heq
        exact hhead (heq ▸ List.mem_map_of_mem FigmaToolResponse.id hr')
      rw [hstep]
      simp only []
      rw [lookupReq_eraseReq_ne _ hne]
      exact hmem r' (List.mem_cons_of_mem r hr')
    have ihr := ih (handleFigmaResponse s r).1 (List.nodup_cons.mp hnd).2 hmem'
      (fun r' hr' => hsucc r' (List.mem_cons_of_mem r hr'))
    rw [hstep] at ihr
    simp [deliverAll, hstep, hrs, ihr]

/-! ### Concrete states used to exercise the theorems -/

/-- A bridge state with one open connection (handle 1) and nothing pending. -/
def connState : ServerState :=
  { figmaConnection := some ⟨1, ReadyState.OPEN⟩
    pendingRequests := []
    isConnected := true
    armedTimers := []
    nextId := 0
    now := 0
    sentFrames := [] }

/-- A connected state with one pending `ping` call (id 0, timer armed). -/
def pendingState : ServerState :=
  { connState with
      pendingRequests := [(0, ⟨0, "ping", 0⟩)]
      armedTimers := [0]
      nextId := 1 }

/-- A state with no connection at all. -/
def disconnState : ServerState :=
  { connState with figmaConnection := none, isConnected := false }

/-- A state whose stored handle is present but in the `CLOSING` readyState. -/
def closingState : ServerState :=
  { connState with figmaConnection := some ⟨1, ReadyState.CLOSING⟩ }

/-- A state whose active connection is handle 2 (which superseded an earlier
handle 1), with one call pending on it. -/
def staleCloseState : ServerState :=
  { connState with
      figmaConnection := some ⟨2, ReadyState.OPEN⟩
      pendingRequests := [(0, ⟨0, "ping", 0⟩)]
      armedTimers := [0]
      nextId := 1 }

/-- A successful `tool_response` frame for id 0. -/
def respOk : FigmaToolResponse := ⟨0, true, [("message", "hi")], none⟩

/-- A dispatch attempted without an active connection rejects synchronously
with the not-connected error and leaves the state untouched. -/
theorem sendToFigma_not_connected (s : ServerState) (tool : String) (args : JsObj)
    (sendOk : Bool) (sendErr : String)
    (h : isFigmaConnected s = false) :
    sendToFigma s tool args sendOk sendErr = (s, .failed notConnectedMsg) := by
  simp [sendToFigma, h]

/-! ### Claims -/

/-- Claim C5: for every invocation made while no connection is Active, the
dispatch fails with the not-connected error and the returned state is the
input state unchanged — so no request identifier was generated (`nextId`
unchanged), no table entry was registered, no timer was started, and no
frame was sent; the caller is answered immediately instead of waiting out a
deadline. -/
theorem c5_not_connected_fails_fast (s : ServerState) (tool : String) (args : JsObj)
    (sendOk : Bool) (sendErr : String)
    (h : isFigmaConnected s = false) :
    sendToFigma s tool args sendOk sendErr = (s, .failed notConnectedMsg) :=
  sendToFigma_not_connected s tool args sendOk sendErr h

/-- Witness for C5 at a concrete disconnected state. -/
theorem c5_not_connected_fails_fast_witness :
    isFigmaConnected disconnState = false ∧
    sendToFigma disconnState "ping" [] true "" = (disconnState, .failed notConnectedMsg) :=
  ⟨by decide, c5_not_connected_fails_fast disconnState "ping" [] true "" (by decide)⟩

/-- Claim C6: for every operation name not present in the catalog of known
tools, the tool-call handler fails with the `Unknown tool` error and the
state is returned unchanged, for every state — connected or not.  The full
generality over `s` shows no connection check influences the outcome, and
state preservation shows no table entry was created and no send was
attempted (the sent-frame trace is unchanged). -/
theorem c6_unknown_tool_fails_fast (s : ServerState) (name : String) (args : JsObj)
    (sendOk : Bool) (sendErr : String)
    (h : name ∉ catalog) :
    callToolStart s name args sendOk sendErr
      = (s, .done (mkError name ("Unknown tool: " ++ name))) := by
  have hne : ¬(name = "ping") := by
    intro heq
    exact h (by simp [catalog, heq])
  simp [callToolStart, hne]

/-- Witness for C6: an unknown name fails with `Unknown tool` even from a
disconnected state (no `NotConnected` is raised first, hence no connection
check), leaving the state untouched. -/
theorem c6_unknown_tool_fails_fast_witness :
    ("move_node" ∉ catalog) ∧
    callToolStart disconnState "move_node" [] true ""
      = (disconnState, .done (mkError "move_node" ("Unknown tool: " ++ "move_node"))) :=
  ⟨by decide, c6_unknown_tool_fails_fast disconnState "move_node" [] true "" (by decide)⟩

/-- Claim C7: if the synchronous send throws after the pending call was
registered, the registration is rolled back — the deadline timer is
cancelled and the entry removed, leaving the table, timers and sent-frame
trace exactly as before the call (only the fresh-id counter advanced) — and
the call fails with the send-failure reason. -/
theorem c7_send_failure_rolls_back (s : ServerState) (tool : String) (args : JsObj)
    (sendErr : String)
    (hc : isFigmaConnected s = true)
    (hfresh : lookupReq s.pendingRequests s.nextId = none) :
    sendToFigma s tool args false sendErr
      = ({ s with nextId := s.nextId + 1 },
         .failed ("Failed to send request to Figma: " ++ sendErr)) := by
  simp [sendToFigma, hc, eraseReq_setReq_self, eraseReq_of_lookupReq_none _ _ hfresh]

/-- Witness for C7 at a concrete connected state: the failed send leaves
the table empty and the timers unchanged. -/
theorem c7_send_failure_rolls_back_witness :
    isFigmaConnected connState = true ∧
    lookupReq connState.pendingRequests connState.nextId = none ∧
    sendToFigma connState "ping" [] false "boom"
      = ({ connState with nextId := connState.nextId + 1 },
         .failed ("Failed to send request to Figma: " ++ "boom")) :=
  ⟨by decide, by decide,
   c7_send_failure_rolls_back connState "ping" [] "boom" (by decide) (by decide)⟩

/-- Claim C9: processing any inbound data-plane message that is not a
`tool_response` — an event, an envelope with an unrecognized or missing
discriminant, or unparseable bytes — returns the state unchanged (pending
table, connection, timers all intact) and resolves or rejects no pending
call. -/
theorem c9_non_result_messages_are_inert (s : ServerState)
    (nm dat raw raw' : String) :
    onMessage s (.event nm dat) = (s, []) ∧
    onMessage s (.unknownType raw) = (s, []) ∧
    onMessage s (.parseFailure raw') = (s, []) :=
  ⟨rfl, rfl, rfl⟩

/-- Claim C10: the bridge considers the connection active only when a handle
is stored and its readyState is `OPEN`; consequently an invocation made
while a handle is present but not `OPEN` fails with the not-connected error
and the state (including the sent-frame trace) is unchanged, so no send is
attempted on that handle. -/
theorem c10_only_open_is_active (s : ServerState) (c : Conn) (tool : String)
    (args : JsObj) (sendOk : Bool) (sendErr : String)
    (hc : s.figmaConnection = some c) (hrs : c.readyState ≠ ReadyState.OPEN) :
    isFigmaConnected s = false ∧
    sendToFigma s tool args sendOk sendErr = (s, .failed notConnectedMsg) ∧
    (∀ s' : ServerState,
      isFigmaConnected s' = true ↔
        ∃ c' : Conn, s'.figmaConnection = some c' ∧ c'.readyState = ReadyState.OPEN) := by
  have hfalse : isFigmaConnected s = false := by
    simp [isFigmaConnected, hc, hrs]
  refine ⟨hfalse, sendToFigma_not_connected s tool args sendOk sendErr hfalse, ?_⟩
  intro s'
  cases hcs : s'.figmaConnection with
  | none => simp [isFigmaConnected, hcs]
  | some c' => simp [isFigmaConnected, hcs]

/-- Witness for C10 at a concrete state whose handle is in `CLOSING`. -/
theorem c10_only_open_is_active_witness :
    closingState.figmaConnection = some ⟨1, ReadyState.CLOSING⟩ ∧
    isFigmaConnected closingState = false ∧
    sendToFigma closingState "ping" [] true "" = (closingState, .failed notConnectedMsg) := by
  have h := c10_only_open_is_active closingState ⟨1, ReadyState.CLOSING⟩ "ping" [] true ""
    rfl (by decide)
  exact ⟨rfl, h.1, h.2.1⟩

/-- Claim C1: a pending call is resolved exactly once.  If an entry for the
response's id is in the table, then (i) delivering the `tool_response`
removes the entry and emits exactly one resolution, carrying that id, after
which any further `tool_response` with the same id is a no-op and the
entry's (now cleared) deadline timer can no longer fire; (ii) if instead the
deadline timer fires first, the entry is removed and rejected with the
timeout error, after which a late `tool_response` with the same id is a
no-op; (iii) a connection close also removes the entry (the ConnectionLost
path, see also C3).  Each resolving path removes the table entry, so a
later resolve attempt finds no entry and has no effect — the caller never
observes a second resolution. -/
theorem c1_exactly_once_resolution (s : ServerState) (resp : FigmaToolResponse)
    (hpend : (lookupReq s.pendingRequests resp.id).isSome = true)
    (hnd : s.armedTimers.Nodup) :
    (lookupReq (handleFigmaResponse s resp).1.pendingRequests resp.id = none ∧
     (handleFigmaResponse s resp).2.map Resolution.id = [resp.id] ∧
     (∀ resp₂ : FigmaToolResponse, resp₂.id = resp.id →
       handleFigmaResponse (handleFigmaResponse s resp).1 resp₂
         = ((handleFigmaResponse s resp).1, [])) ∧
     fireTimer (handleFigmaResponse s resp).1 resp.id
       = ((handleFigmaResponse s resp).1, [])) ∧
    (resp.id ∈ s.armedTimers →
      lookupReq (fireTimer s resp.id).1.pendingRequests resp.id = none ∧
      (fireTimer s resp.id).2 = [⟨resp.id, CallOutcome.err timeoutMsg⟩] ∧
      (∀ resp₂ : FigmaToolResponse, resp₂.id = resp.id →
        handleFigmaResponse (fireTimer s resp.id).1 resp₂
          = ((fireTimer s resp.id).1, []))) ∧
    (∀ hdl : Nat, lookupReq (onClose s hdl).1.pendingRequests resp.id = none) := by
  obtain ⟨p, hp⟩ := Option.isSome_iff_exists.mp hpend
  have hstep := handleFigmaResponse_of_some hp
  refine ⟨⟨?_, ?_, ?_, ?_⟩, ?_, ?_⟩
  · rw [hstep]
    exact lookupReq_eraseReq_self _ _
  · rw [hstep]
    simp
  · intro resp₂ hid
    apply handleFigmaResponse_of_none
    rw [hstep, hid]
    exact lookupReq_eraseReq_self _ _
  · rw [hstep]
    simp [fireTimer, List.Nodup.mem_erase_iff hnd]
  · intro hm
    refine ⟨?_, ?_, ?_⟩
    · simp only [fireTimer, hm, if_pos, timerCallback]
      exact lookupReq_eraseReq_self _ _
    · simp [fireTimer, hm, timerCallback]
    · intro resp₂ hid
      apply handleFigmaResponse_of_none
      simp only [fireTimer, hm, if_pos, timerCallback]
      rw [hid]
      exact lookupReq_eraseReq_self _ _
  · intro hdl
    simp [onClose, lookupReq]

/-- Witness for C1 at a concrete state with one pending call. -/
theorem c1_exactly_once_resolution_witness :
    (lookupReq pendingState.pendingRequests respOk.id).isSome = true ∧
    pendingState.armedTimers.Nodup ∧
    lookupReq (handleFigmaResponse pendingState respOk).1.pendingRequests respOk.id
      = none :=
  ⟨by decide, by decide,
   (c1_exactly_once_resolution pendingState respOk (by decide) (by decide)).1.1⟩

/-- Claim C3: when the active connection closes with K pending calls, every
pending call is rejected with the ConnectionLost reason ("Figma plugin
disconnected"), every entry's deadline timer is cancelled, and the
pending-call table becomes empty; a `tool_response` frame arriving
afterwards bearing one of the former identifiers (indeed any identifier) is
silently discarded. -/
theorem c3_close_rejects_all_pending (s : ServerState) (c : Conn) (hdl : Nat)
    (_hact : s.figmaConnection = some c) :
    (onClose s hdl).1.pendingRequests = [] ∧
    (onClose s hdl).1.figmaConnection = none ∧
    (onClose s hdl).2 = s.pendingRequests.map (fun p => ⟨p.1, .err disconnectedMsg⟩) ∧
    (onClose s hdl).2.length = s.pendingRequests.length ∧
    (∀ p ∈ s.pendingRequests, p.1 ∉ (onClose s hdl).1.armedTimers) ∧
    (∀ r : FigmaToolResponse,
      onMessage (onClose s hdl).1 (.toolResponse r) = ((onClose s hdl).1, [])) := by
  refine ⟨rfl, rfl, rfl, by simp [onClose], ?_, ?_⟩
  · intro p hp hmem
    simp only [onClose, List.mem_filter] at hmem
    have : s.pendingRequests.any (fun q => q.1 == p.1) = true :=
      List.any_eq_true.mpr ⟨p, hp, by simp⟩
    simp [this] at hmem
  · intro r
    simpa [onMessage] using
      handleFigmaResponse_of_none (s := (onClose s hdl).1) (r := r) rfl

/-- Witness for C3 at a concrete state with one pending call. -/
theorem c3_close_rejects_all_pending_witness :
    pendingState.figmaConnection = some ⟨1, ReadyState.OPEN⟩ ∧
    (onClose pendingState 1).1.pendingRequests = [] ∧
    (onClose pendingState 1).2
      = pendingState.pendingRequests.map (fun p => ⟨p.1, .err disconnectedMsg⟩) := by
  have h := c3_close_rejects_all_pending pendingState ⟨1, ReadyState.OPEN⟩ 1 rfl
  exact ⟨rfl, h.1, h.2.2.1⟩

/-- Counterexample to claim C4 as stated: in `staleCloseState` the active
connection is handle 2, yet a close notification for the superseded handle
1 clears the stored connection to Absent and rejects the call pending on
the newer connection — a stale close is NOT a no-op in the source, because
the `ws.on("close")` handler never compares the closing socket with the
currently stored one. -/
theorem c4_stale_close_counterexample :
    staleCloseState.figmaConnection = some ⟨2, ReadyState.OPEN⟩ ∧
    (2 : Nat) ≠ 1 ∧
    (onClose staleCloseState 1).1.figmaConnection = none ∧
    (onClose staleCloseState 1).2 = [⟨0, .err disconnectedMsg⟩] :=
  ⟨rfl, by decide, rfl, rfl⟩

/-- Claim C4 (amended): a close notification for ANY connection handle —
including one already superseded by a later connect — clears the stored
connection to Absent and rejects every pending call with the ConnectionLost
reason; the handler does not compare the closing handle with the currently
active one, so a stale close does clear a newer active connection and does
reject the calls pending on it. -/
theorem c4_close_ignores_handle (s : ServerState) (c : Conn) (hdl : Nat)
    (_hact : s.figmaConnection = some c) (_hne : c.handle ≠ hdl) :
    (onClose s hdl).1.figmaConnection = none ∧
    (onClose s hdl).1.isConnected = false ∧
    (onClose s hdl).1.pendingRequests = [] ∧
    (onClose s hdl).2 = s.pendingRequests.map (fun p => ⟨p.1, .err disconnectedMsg⟩) :=
  ⟨rfl, rfl, rfl, rfl⟩

/-- Witness for the amended C4 at the concrete stale-close state. -/
theorem c4_close_ignores_handle_witness :
    staleCloseState.figmaConnection = some ⟨2, ReadyState.OPEN⟩ ∧
    ((⟨2, ReadyState.OPEN⟩ : Conn).handle ≠ 1) ∧
    (onClose staleCloseState 1).1.figmaConnection = none ∧
    (onClose staleCloseState 1).2
      = staleCloseState.pendingRequests.map (fun p => ⟨p.1, .err disconnectedMsg⟩) := by
  have h := c4_close_ignores_handle staleCloseState ⟨2, ReadyState.OPEN⟩ 1 rfl (by decide)
  exact ⟨rfl, by decide, h.1, h.2.2.2⟩

/-- Claim C8: for every control-plane tool invocation and every dispatch
outcome, the handler returns a structured `ToolResult` (the model's handler
is a total function — no fault escapes it): an unknown tool, a
not-connected dispatch, and a synchronous send failure each produce a
`done` error result; every awaited rejection (timeout, connection lost,
remote error — all arriving as an `err` outcome with the reason message) is
converted by the catch-block; and every such failure payload is plain text
naming the operation and the failure reason with the error flag set. -/
theorem c8_control_plane_never_faults (s : ServerState) (name : String) (args : JsObj)
    (sendErr msg : String) :
    (name ∉ catalog →
      callToolStart s name args true sendErr
        = (s, .done (mkError name ("Unknown tool: " ++ name)))) ∧
    (name ∈ catalog → isFigmaConnected s = false →
      (callToolStart s name args true sendErr).2
        = .done (mkError name notConnectedMsg)) ∧
    (name ∈ catalog → isFigmaConnected s = true →
      (callToolStart s name args false sendErr).2
        = .done (mkError name ("Failed to send request to Figma: " ++ sendErr))) ∧
    (callToolFinish name args (.err msg) = mkError name msg) ∧
    (∀ nm m : String, (mkError nm m).isError = true ∧
      (mkError nm m).content = ["Error executing tool \"" ++ nm ++ "\": " ++ m]) := by
  refine ⟨?_, ?_, ?_, rfl, ?_⟩
  · intro h
    have hne : ¬(name = "ping") := fun heq => h (by simp [catalog, heq])
    simp [callToolStart, hne]
  · intro hmem hconn
    have heq : name = "ping" := by simpa [catalog] using hmem
    subst heq
    simp [callToolStart, sendToFigma_not_connected _ _ _ _ _ hconn]
  · intro hmem hconn
    have heq : name = "ping" := by simpa [catalog] using hmem
    subst heq
    simp [callToolStart, sendToFigma, hconn]
  · intro nm m
    exact ⟨rfl, rfl⟩

/-- Witness for C8: the not-connected dispatch of the known `ping` tool
from a concrete disconnected state yields the structured error result. -/
theorem c8_control_plane_never_faults_witness :
    ("ping" ∈ catalog) ∧
    isFigmaConnected disconnState = false ∧
    (callToolStart disconnState "ping" [] true "").2
      = .done (mkError "ping" notConnectedMsg) := by
  refine ⟨by decide, by decide, ?_⟩
  exact (c8_control_plane_never_faults disconnState "ping" [] "" "x").2.1
    (by decide) (by decide)

/-- Claim C2: issuing N ≥ 2 invocations back-to-back registers N pending
calls with N distinct request identifiers, and delivering their success
Results in ANY order (any permutation of the issued ids, in particular the
reverse of send order) resolves each waiting call with exactly the payload
of the Result carrying its own identifier. -/
theorem c2_out_of_order_correlation (s : ServerState) (tools : List (String × JsObj))
    (_hN : 2 ≤ tools.length) (hc : isFigmaConnected s = true)
    (rs : List FigmaToolResponse)
    (hperm : List.Perm (rs.map FigmaToolResponse.id) (registerAll s tools).2)
    (hsucc : ∀ r ∈ rs, r.success = true) :
    (registerAll s tools).2.Nodup ∧
    (registerAll s tools).2.length = tools.length ∧
    (deliverAll (registerAll s tools).1 rs).2
      = rs.map (fun r => ⟨r.id, CallOutcome.ok r.data⟩) := by
  obtain ⟨hids, _hcon, hmem, _hother⟩ := registerAll_spec tools s hc
  have hnodup : (registerAll s tools).2.Nodup := by
    rw [hids]
    exact idRange_nodup _ _
  refine ⟨hnodup, ?_, ?_⟩
  · rw [hids]
    exact idRange_length _ _
  · apply deliverAll_ok
    · exact (hperm.nodup_iff).mpr hnodup
    · intro r hr
      have hmm : r.id ∈ (registerAll s tools).2 :=
        hperm.mem_iff.mp (List.mem_map_of_mem _ hr)
      rw [hids] at hmm
      exact hmem _ hmm
    · exact hsucc

/-- Two back-to-back `ping` invocations, used to exercise C2. -/
def demoTools : List (String × JsObj) := [("ping", []), ("ping", [])]

/-- The two success Results for `demoTools`, delivered in reverse order of
the send order (ids 1 then 0), each carrying its own payload. -/
def demoRs : List FigmaToolResponse :=
  [⟨1, true, [("k", "v1")], none⟩, ⟨0, true, [("k", "v0")], none⟩]

/-- Witness for C2: the two concrete calls get distinct ids 0 and 1, and
reverse-order delivery resolves call 1 with payload `v1` and call 0 with
payload `v0`. -/
theorem c2_out_of_order_correlation_witness :
    (2 ≤ demoTools.length) ∧
    isFigmaConnected connState = true ∧
    List.Perm (demoRs.map FigmaToolResponse.id) (registerAll connState demoTools).2 ∧
    (∀ r ∈ demoRs, r.success = true) ∧
    (deliverAll (registerAll connState demoTools).1 demoRs).2
      = demoRs.map (fun r => ⟨r.id, CallOutcome.ok r.data⟩) := by
  refine ⟨by decide, by decide, by decide, by decide, ?_⟩
  exact (c2_out_of_order_correlation connState demoTools (by decide) (by decide) demoRs
    (by decide) (by decide)).2.2
